import Mathlib

/-!
Shallow embedding of the Primo interface-board firmware
(src/Sketches/interface_board/interface_board.ino).

The reads of the four MCP23S17 GPIO expanders (`gpioExpN.readPort()`) are
abstracted as a record of four 16-bit port values that stays fixed for the
duration of one capture gesture, so every definition below is a pure
function of those reads.  The 32-byte `packet` buffer is modelled as a
store `Nat → Nat` together with the explicit list of (index, value) stores
the build loop performs; keeping the store list explicit lets theorems
observe stores whose index falls outside the 32-byte array.
-/

-- Constants defined at interface_board.ino lines 53-58, 87, 93, 106-109, 237.
abbrev PRIMO_MAGNET_NONE : Nat := 0
abbrev PRIMO_MAGNET_FORWARD : Nat := 1
abbrev PRIMO_MAGNET_RIGHT : Nat := 2
abbrev PRIMO_MAGNET_LEFT : Nat := 3
abbrev PRIMO_MAGNET_FUNCTION : Nat := 4
abbrev PRIMO_MAGNET_ERR : Nat := 5
abbrev PRIMO_NRF24L01_MAX_PACKET_SIZE : Nat := 32
abbrev PRIMO_ID : Nat := 0xDE1D8758
abbrev PRIMO_COMMAND_STOP : Nat := 0x00
abbrev PRIMO_COMMAND_FORWARD : Nat := 0x01
abbrev PRIMO_COMMAND_LEFT : Nat := 0x02
abbrev PRIMO_COMMAND_RIGHT : Nat := 0x03
abbrev PRIMO_MAX_BUTTON : Nat := 28

/-- One reading of the four GPIO-expander ports (`gpioExp1.readPort()` ..
`gpioExp4.readPort()`), fixed for the duration of one capture gesture. -/
structure Ports where
  p1 : Nat
  p2 : Nat
  p3 : Nat
  p4 : Nat
  deriving DecidableEq

/-- The nibble extracted for a button by the `switch (button_to_check)` of
`check_button` (lines 590-681): buttons 1-4 use expander 1, 5-8 expander 2,
9-12 expander 3, 13-16 expander 4, each taking 4 bits at offset
`4 * ((b - 1) % 4)`; the `default` arm yields `hall_response = 0`,
`button = 0`. -/
def slotNibble (env : Ports) (b : Nat) : Nat :=
  match b with
  | 1 => env.p1 &&& 0x0F
  | 2 => (env.p1 >>> 4) &&& 0x0F
  | 3 => (env.p1 >>> 8) &&& 0x0F
  | 4 => (env.p1 >>> 12) &&& 0x0F
  | 5 => env.p2 &&& 0x0F
  | 6 => (env.p2 >>> 4) &&& 0x0F
  | 7 => (env.p2 >>> 8) &&& 0x0F
  | 8 => (env.p2 >>> 12) &&& 0x0F
  | 9 => env.p3 &&& 0x0F
  | 10 => (env.p3 >>> 4) &&& 0x0F
  | 11 => (env.p3 >>> 8) &&& 0x0F
  | 12 => (env.p3 >>> 12) &&& 0x0F
  | 13 => env.p4 &&& 0x0F
  | 14 => (env.p4 >>> 4) &&& 0x0F
  | 15 => (env.p4 >>> 8) &&& 0x0F
  | 16 => (env.p4 >>> 12) &&& 0x0F
  | _ => 0

/-- `invert_magnet` is set exactly in the `case 5` .. `case 8` arms of
`check_button` (lines 612-635). -/
def slotInvert (b : Nat) : Bool :=
  b == 5 || b == 6 || b == 7 || b == 8

/-- `twisted` is set only in the `case 8` arm of `check_button` (line 634). -/
def slotTwisted (b : Nat) : Bool :=
  b == 8

/-- The bit untwisting of `check_button` (line 689):
`t_button = (button & 0x01) + ((button & 0x02) << 1) + ((button & 0x04) >> 1)`. -/
def untwist (b : Nat) : Nat :=
  (b &&& 0x01) + ((b &&& 0x02) <<< 1) + ((b &&& 0x04) >>> 1)

/-- The corrected 3-bit sensor code for a button: the nibble masked by
`button & 0x07` (line 684) and untwisted when the slot is twisted
(lines 687-692). -/
def correctedCode (env : Ports) (b : Nat) : Nat :=
  if slotTwisted b then untwist (slotNibble env b &&& 0x07)
  else slotNibble env b &&& 0x07

/-- The `switch (button)` decode table of `check_button` (lines 697-720). -/
def decode_code (invert : Bool) (code : Nat) : Nat :=
  if code = 2 then PRIMO_MAGNET_FUNCTION
  else if code = 3 then (if invert then PRIMO_MAGNET_RIGHT else PRIMO_MAGNET_FORWARD)
  else if code = 4 then (if invert then PRIMO_MAGNET_FUNCTION else PRIMO_MAGNET_NONE)
  else if code = 5 then PRIMO_MAGNET_LEFT
  else if code = 6 then (if invert then PRIMO_MAGNET_FORWARD else PRIMO_MAGNET_RIGHT)
  else if code = 7 then PRIMO_MAGNET_NONE
  else PRIMO_MAGNET_NONE

/-- `check_button` (lines 572-725): select the nibble and orientation flags
for the button, mask to 3 bits, untwist, then decode. -/
def check_button (env : Ports) (button_to_check : Nat) : Nat :=
  decode_code (slotInvert button_to_check) (correctedCode env button_to_check)

/-- The command byte appended for one decoded magnet inside the
function-expansion loop (lines 329-348): Forward/Right/Left append their
command byte, everything else (the `default` arm) appends nothing. -/
def magnetToCommand (m : Nat) : Option Nat :=
  if m = PRIMO_MAGNET_FORWARD then some PRIMO_COMMAND_FORWARD
  else if m = PRIMO_MAGNET_RIGHT then some PRIMO_COMMAND_RIGHT
  else if m = PRIMO_MAGNET_LEFT then some PRIMO_COMMAND_LEFT
  else none

/-- The commands contributed by one Function expansion: auxiliary slots
13..16 decoded in increasing order, keeping Forward/Right/Left results. -/
def functionExpansion (env : Ports) : List Nat :=
  (List.range' 1 4).filterMap (fun fe => magnetToCommand (check_button env (12 + fe)))

/-- State of the packet-building pass in `loop`: the write cursor
`current_element`, the `terminated` flag, and the ordered list of
(index, value) stores performed into `packet` so far. -/
structure BuildState where
  cur : Nat
  term : Bool
  ws : List (Nat × Nat)
  deriving DecidableEq

/-- `packet[current_element++] = v`. -/
def push (st : BuildState) (v : Nat) : BuildState :=
  ⟨st.cur + 1, st.term, st.ws ++ [(st.cur, v)]⟩

/-- One iteration of the inner function-expansion loop
(lines 329-348): `switch (check_button(12 + function_element))`. -/
def stepAux (env : Ports) (st : BuildState) (fe : Nat) : BuildState :=
  if check_button env (12 + fe) = PRIMO_MAGNET_FORWARD then push st PRIMO_COMMAND_FORWARD
  else if check_button env (12 + fe) = PRIMO_MAGNET_RIGHT then push st PRIMO_COMMAND_RIGHT
  else if check_button env (12 + fe) = PRIMO_MAGNET_LEFT then push st PRIMO_COMMAND_LEFT
  else st

/-- One iteration of the packet-building loop over `button` (lines 310-363):
when `terminated`, a Stop is stored; otherwise the decoded magnet is
dispatched, a Function decodes the four auxiliary slots, and None sets
`terminated`. -/
def stepButton (env : Ports) (st : BuildState) (b : Nat) : BuildState :=
  if st.term = true then push st PRIMO_COMMAND_STOP
  else if check_button env b = PRIMO_MAGNET_FORWARD then push st PRIMO_COMMAND_FORWARD
  else if check_button env b = PRIMO_MAGNET_RIGHT then push st PRIMO_COMMAND_RIGHT
  else if check_button env b = PRIMO_MAGNET_LEFT then push st PRIMO_COMMAND_LEFT
  else if check_button env b = PRIMO_MAGNET_FUNCTION then (List.range' 1 4).foldl (stepAux env) st
  else if check_button env b = PRIMO_MAGNET_NONE then { st with term := true }
  else st

/-- The packet-building loop of `loop` (lines 303-363): `current_element`
starts at 8, `terminated` at 0, and buttons 1 .. `PRIMO_MAX_BUTTON` are
scanned in increasing order. -/
def buildLoop (env : Ports) : BuildState :=
  (List.range' 1 PRIMO_MAX_BUTTON).foldl (stepButton env) ⟨8, false, []⟩

/-- The trailing Stop-padding loop (lines 366-367):
`while (current_element < PRIMO_MAX_BUTTON) packet[current_element++] = PRIMO_COMMAND_STOP`. -/
def padStops (st : BuildState) : BuildState :=
  ⟨max st.cur PRIMO_MAX_BUTTON, st.term,
   st.ws ++ (List.range' st.cur (PRIMO_MAX_BUTTON - st.cur)).map
     (fun i => (i, PRIMO_COMMAND_STOP))⟩

/-- All stores into `packet` performed by one complete build pass. -/
def buildWrites (env : Ports) : List (Nat × Nat) :=
  (padStops (buildLoop env)).ws

/-- Apply a list of (index, value) stores to a byte store, earlier stores
first, so that later stores win. -/
def applyWrites (p : Nat → Nat) : List (Nat × Nat) → Nat → Nat
  | [] => p
  | w :: ws => applyWrites (fun x => if x = w.1 then w.2 else p x) ws

/-- The effect of one complete build pass on the packet store. -/
def buildPass (env : Ports) (p : Nat → Nat) : Nat → Nat :=
  applyWrites p (buildWrites env)

/-- The figure-of-eight test pattern written by `initialise_packet` into
`packet[8..24)` (lines 523-538). -/
def figure8 : List Nat :=
  [PRIMO_COMMAND_FORWARD, PRIMO_COMMAND_LEFT, PRIMO_COMMAND_FORWARD, PRIMO_COMMAND_LEFT,
   PRIMO_COMMAND_FORWARD, PRIMO_COMMAND_LEFT, PRIMO_COMMAND_FORWARD, PRIMO_COMMAND_RIGHT,
   PRIMO_COMMAND_FORWARD, PRIMO_COMMAND_RIGHT, PRIMO_COMMAND_FORWARD, PRIMO_COMMAND_RIGHT,
   PRIMO_COMMAND_FORWARD, PRIMO_COMMAND_RIGHT, PRIMO_COMMAND_FORWARD, PRIMO_COMMAND_LEFT]

/-- `initialise_packet` (lines 503-568) as the initial contents of `packet`:
bytes 0..4 are the little-endian bytes of `PRIMO_ID` (the `memcpy` of the
32-bit constant on the little-endian AVR), bytes 4..8 the little-endian
bytes of the random identity `r` drawn at boot, bytes 8..24 the
figure-of-eight test commands and bytes 24..32 Stop. -/
def initialise_packet (r : Nat) : Nat → Nat := fun i =>
  if i < 4 then (PRIMO_ID >>> (8 * i)) &&& 0xFF
  else if i < 8 then (r >>> (8 * (i - 4))) &&& 0xFF
  else if i < 24 then figure8.getD (i - 8) PRIMO_COMMAND_STOP
  else PRIMO_COMMAND_STOP

/-- The packet store after a power cycle that drew identity `r` and then
completed the given capture gestures in order. -/
def runGestures (r : Nat) (envs : List Ports) : Nat → Nat :=
  envs.foldl (fun p env => buildPass env p) (initialise_packet r)

/-- The 32 bytes handed to `radio.startWrite(packet, PRIMO_NRF24L01_MAX_PACKET_SIZE)`. -/
def frameBytes (p : Nat → Nat) : List Nat :=
  (List.range PRIMO_NRF24L01_MAX_PACKET_SIZE).map p

/-- The command bytes among a list of stores: stores of a non-Stop value.
During a build pass every command append stores 1, 2 or 3 and every other
store is a Stop, so this recovers exactly the appended command sequence. -/
def cmdValues (ws : List (Nat × Nat)) : List Nat :=
  (ws.filter (fun w => w.2 != PRIMO_COMMAND_STOP)).map Prod.snd

/-- The command sequence the scan of the given buttons decodes, read off
the source: Forward/Right/Left contribute their command byte, a Function
slot contributes its expansion, the first None ends the sequence, and any
other decode contributes nothing. -/
def scanCommands (env : Ports) : List Nat → List Nat
  | [] => []
  | b :: rest =>
    if check_button env b = PRIMO_MAGNET_FORWARD then
      PRIMO_COMMAND_FORWARD :: scanCommands env rest
    else if check_button env b = PRIMO_MAGNET_RIGHT then
      PRIMO_COMMAND_RIGHT :: scanCommands env rest
    else if check_button env b = PRIMO_MAGNET_LEFT then
      PRIMO_COMMAND_LEFT :: scanCommands env rest
    else if check_button env b = PRIMO_MAGNET_FUNCTION then
      functionExpansion env ++ scanCommands env rest
    else if check_button env b = PRIMO_MAGNET_NONE then []
    else scanCommands env rest

/-- An interaction with the radio transport. -/
inductive RadioAction where
  | startWrite (payload : List Nat) (size : Nat)
  | powerDown
  | readAck (count : Nat)
  deriving DecidableEq

/-- The radio interactions of one `loop` iteration after the button is
released (lines 377-385): the freshly built packet is handed to
`radio.startWrite` twice in immediate succession, with nothing between or
after the two calls. -/
def gestureTrace (env : Ports) (p : Nat → Nat) : List RadioAction :=
  [RadioAction.startWrite (frameBytes (buildPass env p)) PRIMO_NRF24L01_MAX_PACKET_SIZE,
   RadioAction.startWrite (frameBytes (buildPass env p)) PRIMO_NRF24L01_MAX_PACKET_SIZE]

/-- The flags delivered by `radio.whatHappened(tx, fail, rx)` plus the
acknowledgement payload available to `radio.read` when `rx` is set. -/
structure RadioEvent where
  tx : Bool
  fail : Bool
  rx : Bool
  ackPayload : Nat
  deriving DecidableEq

/-- The interrupt handler `checkRadio` (lines 470-499), as a function of the
event and the current `ackMessageCount`.  It returns the new
`ackMessageCount` (the 4-byte `radio.read` stores the payload as a 32-bit
value exactly when `rx` is set), whether `radio.powerDown()` was invoked
(exactly when `tx || fail`), and the frames handed to `radio.startWrite`
inside the handler (there are none; `tx`, `fail` and the acknowledgement
are logged only). -/
def checkRadio (ev : RadioEvent) (ackMessageCount : Nat) : Nat × Bool × List (List Nat) :=
  ((if ev.rx then ev.ackPayload % 2 ^ 32 else ackMessageCount),
   ev.tx || ev.fail,
   ([] : List (List Nat)))

/-- A board on which every slot reads code 0: every slot decodes None. -/
def envAllEmpty : Ports := ⟨0, 0, 0, 0⟩

/-- A board on which all 12 primary slots decode Function and all 4
auxiliary slots decode Forward (slots 5-7 are inverted so code 2 is
Function; slot 8 is inverted and twisted so raw code 4 untwists to 2). -/
def envAllFunctionForward : Ports := ⟨0x2222, 0x4222, 0x2222, 0x3333⟩

/-- A board on which all 12 primary slots decode Function and all 4
auxiliary slots decode None, so every expansion is empty. -/
def envAllFunctionEmpty : Ports := ⟨0x2222, 0x4222, 0x2222, 0x0⟩

/-- A board on which all 12 primary slots decode Forward (slots 5-8 are
inverted, so code 6 decodes Forward; the twisted slot 8 reads raw code 6,
which untwists to 6), slot 13 decodes Forward and slots 14-16 decode
None. -/
def envPrimariesFull : Ports := ⟨0x3333, 0x6666, 0x3333, 0x0003⟩

/-- The auxiliary-slot reading used by the spec's expansion example:
slot 13 reads code 3 (Forward), slot 14 code 0 (None), slot 15 code 5
(Left), slot 16 code 6 (Right). -/
def envAuxExample : Ports := ⟨0, 0, 0, 0x6503⟩

/-- Invariant of the build pass: the write cursor never drops below the
first command byte, and every store so far targets an index at or beyond
byte 8 with a value that is a valid command discriminant. -/
def GoodState (st : BuildState) : Prop :=
  8 ≤ st.cur ∧ ∀ w ∈ st.ws, 8 ≤ w.1 ∧ w.2 ≤ 3

theorem cmdValues_append (ws1 ws2 : List (Nat × Nat)) :
    cmdValues (ws1 ++ ws2) = cmdValues ws1 ++ cmdValues ws2 := by
  simp [cmdValues, List.filter_append]

theorem cmdValues_push_stop (st : BuildState) :
    cmdValues (push st PRIMO_COMMAND_STOP).ws = cmdValues st.ws := by
  simp [push, cmdValues, List.filter_append]

theorem cmdValues_push_cmd (st : BuildState) (v : Nat) (hv : v ≠ PRIMO_COMMAND_STOP) :
    cmdValues (push st v).ws = cmdValues st.ws ++ [v] := by
  simp [push, cmdValues, List.filter_append, List.filter_cons, hv]

theorem cmdValues_stops_map (l : List Nat) :
    cmdValues (l.map (fun i => (i, PRIMO_COMMAND_STOP))) = [] := by
  induction l with
  | nil => rfl
  | cons a l ih => simp [cmdValues, List.filter_cons]

theorem goodState_push {st : BuildState} {v : Nat} (h : GoodState st) (hv : v ≤ 3) :
    GoodState (push st v) := by
  refine ⟨Nat.le_succ_of_le h.1, ?_⟩
  intro w hw
  simp only [push, List.mem_append, List.mem_singleton] at hw
  rcases hw with hw | hw
  · exact h.2 w hw
  · subst hw; exact ⟨h.1, hv⟩

theorem goodState_stepAux {env : Ports} {st : BuildState} (fe : Nat) (h : GoodState st) :
    GoodState (stepAux env st fe) := by
  unfold stepAux
  split_ifs <;> first | exact goodState_push h (by decide) | exact h

theorem goodState_auxFold {env : Ports} (l : List Nat) {st : BuildState} (h : GoodState st) :
    GoodState (l.foldl (stepAux env) st) := by
  induction l generalizing st with
  | nil => exact h
  | cons a l ih => exact ih (goodState_stepAux a h)

theorem goodState_stepButton {env : Ports} {st : BuildState} (b : Nat) (h : GoodState st) :
    GoodState (stepButton env st b) := by
  unfold stepButton
  split_ifs <;>
    first
      | exact goodState_push h (by decide)
      | exact goodState_auxFold _ h
      | exact ⟨h.1, h.2⟩

theorem goodState_buttonFold {env : Ports} (l : List Nat) {st : BuildState} (h : GoodState st) :
    GoodState (l.foldl (stepButton env) st) := by
  induction l generalizing st with
  | nil => exact h
  | cons b l ih => exact ih (goodState_stepButton b h)

theorem goodState_padStops {st : BuildState} (h : GoodState st) : GoodState (padStops st) := by
  refine ⟨le_trans h.1 (le_max_left _ _), ?_⟩
  intro w hw
  simp only [padStops, List.mem_append, List.mem_map, List.mem_range'_1] at hw
  rcases hw with hw | ⟨i, hi, rfl⟩
  · exact h.2 w hw
  · exact ⟨le_trans h.1 hi.1, by norm_num⟩

theorem buildWrites_good (env : Ports) : ∀ w ∈ buildWrites env, 8 ≤ w.1 ∧ w.2 ≤ 3 :=
  (goodState_padStops (goodState_buttonFold _ ⟨Nat.le_refl 8, by simp⟩)).2

theorem applyWrites_eq_of_not_written (ws : List (Nat × Nat)) (p : Nat → Nat) (i : Nat)
    (h : ∀ w ∈ ws, w.1 ≠ i) : applyWrites p ws i = p i := by
  induction ws generalizing p with
  | nil => rfl
  | cons w ws ih =>
    have h1 : w.1 ≠ i := h w (List.mem_cons_self w ws)
    have h2 : ∀ w2 ∈ ws, w2.1 ≠ i := fun w2 hw2 => h w2 (List.mem_cons_of_mem w hw2)
    show applyWrites (fun x => if x = w.1 then w.2 else p x) ws i = p i
    rw [ih _ h2, if_neg (Ne.symm h1)]

theorem applyWrites_le_three (ws : List (Nat × Nat)) (p : Nat → Nat) (i : Nat)
    (hws : ∀ w ∈ ws, w.2 ≤ 3) (hp : p i ≤ 3) : applyWrites p ws i ≤ 3 := by
  induction ws generalizing p with
  | nil => exact hp
  | cons w ws ih =>
    show applyWrites (fun x => if x = w.1 then w.2 else p x) ws i ≤ 3
    refine ih _ (fun w2 hw2 => hws w2 (List.mem_cons_of_mem w hw2)) ?_
    by_cases hi : i = w.1
    · simpa [hi] using hws w (List.mem_cons_self w ws)
    · simpa [hi] using hp

theorem buildPass_low (env : Ports) (p : Nat → Nat) (i : Nat) (hi : i < 8) :
    buildPass env p i = p i :=
  applyWrites_eq_of_not_written _ _ _ (fun w hw => by
    have := (buildWrites_good env w hw).1; omega)

theorem buildPass_le_three (env : Ports) (p : Nat → Nat) (i : Nat) (hp : p i ≤ 3) :
    buildPass env p i ≤ 3 :=
  applyWrites_le_three _ _ _ (fun w hw => (buildWrites_good env w hw).2) hp

theorem foldGestures_low (envs : List Ports) (p : Nat → Nat) (i : Nat) (hi : i < 8) :
    envs.foldl (fun q env => buildPass env q) p i = p i := by
  induction envs generalizing p with
  | nil => rfl
  | cons e envs ih =>
    rw [List.foldl_cons, ih (buildPass e p), buildPass_low e p i hi]

theorem foldGestures_le_three (envs : List Ports) (p : Nat → Nat) (i : Nat)
    (hp : p i ≤ 3) : envs.foldl (fun q env => buildPass env q) p i ≤ 3 := by
  induction envs generalizing p with
  | nil => exact hp
  | cons e envs ih =>
    rw [List.foldl_cons]
    exact ih (buildPass e p) (buildPass_le_three e p i hp)

theorem figure8_getD_le_three (j : Nat) : figure8.getD j PRIMO_COMMAND_STOP ≤ 3 := by
  rcases Nat.lt_or_ge j 16 with hj | hj
  · interval_cases j <;> decide
  · have hlen : figure8.length ≤ j := by simp [figure8]; omega
    rw [List.getD_eq_default _ _ hlen]
    decide

theorem initialise_packet_tag (r i : Nat) (hi : i < 4) :
    initialise_packet r i = (PRIMO_ID >>> (8 * i)) &&& 0xFF := by
  unfold initialise_packet
  rw [if_pos hi]

theorem initialise_packet_identity (r i : Nat) (hi : i < 4) :
    initialise_packet r (4 + i) = (r >>> (8 * i)) &&& 0xFF := by
  unfold initialise_packet
  rw [if_neg (by omega), if_pos (by omega)]
  have h4 : 4 + i - 4 = i := by omega
  rw [h4]

theorem initialise_packet_le_three (r i : Nat) (h8 : 8 ≤ i) :
    initialise_packet r i ≤ 3 := by
  unfold initialise_packet
  rw [if_neg (by omega), if_neg (by omega)]
  split_ifs
  · exact figure8_getD_le_three _
  · decide

theorem stepAux_term (env : Ports) (st : BuildState) (fe : Nat) :
    (stepAux env st fe).term = st.term := by
  unfold stepAux
  split_ifs <;> rfl

theorem stepAux_cmdValues (env : Ports) (st : BuildState) (fe : Nat) :
    cmdValues (stepAux env st fe).ws
      = cmdValues st.ws ++ (magnetToCommand (check_button env (12 + fe))).toList := by
  unfold stepAux magnetToCommand
  split_ifs with h1 h2 h3
  · rw [cmdValues_push_cmd st _ (by decide)]; rfl
  · rw [cmdValues_push_cmd st _ (by decide)]; rfl
  · rw [cmdValues_push_cmd st _ (by decide)]; rfl
  · simp

theorem auxFold_term (env : Ports) (l : List Nat) (st : BuildState) :
    (l.foldl (stepAux env) st).term = st.term := by
  induction l generalizing st with
  | nil => rfl
  | cons a l ih => rw [List.foldl_cons, ih, stepAux_term]

theorem auxFold_cmdValues (env : Ports) (l : List Nat) (st : BuildState) :
    cmdValues ((l.foldl (stepAux env) st).ws)
      = cmdValues st.ws
          ++ l.filterMap (fun fe => magnetToCommand (check_button env (12 + fe))) := by
  induction l generalizing st with
  | nil => simp
  | cons a l ih =>
    rw [List.foldl_cons, ih, stepAux_cmdValues, List.filterMap_cons]
    cases magnetToCommand (check_button env (12 + a)) <;> simp

theorem auxFold_functionExpansion (env : Ports) (st : BuildState) :
    cmdValues (((List.range' 1 4).foldl (stepAux env) st).ws)
      = cmdValues st.ws ++ functionExpansion env :=
  auxFold_cmdValues env _ st

theorem buttonFold_term_true (env : Ports) (l : List Nat) (st : BuildState)
    (h : st.term = true) :
    cmdValues ((l.foldl (stepButton env) st).ws) = cmdValues st.ws := by
  induction l generalizing st with
  | nil => rfl
  | cons b l ih =>
    rw [List.foldl_cons]
    have hstep : stepButton env st b = push st PRIMO_COMMAND_STOP := by
      unfold stepButton; rw [if_pos h]
    rw [hstep, ih _ (by simpa [push] using h), cmdValues_push_stop]

theorem buttonFold_cmdValues (env : Ports) (l : List Nat) :
    ∀ st : BuildState, st.term = false →
      cmdValues ((l.foldl (stepButton env) st).ws)
        = cmdValues st.ws ++ scanCommands env l := by
  induction l with
  | nil => intro st h; simp [scanCommands]
  | cons b l ih =>
    intro st h
    rw [List.foldl_cons, scanCommands]
    by_cases h1 : check_button env b = PRIMO_MAGNET_FORWARD
    · rw [if_pos h1,
        show stepButton env st b = push st PRIMO_COMMAND_FORWARD from by
          unfold stepButton; rw [if_neg (by simp [h]), if_pos h1],
        ih _ (by simpa [push] using h), cmdValues_push_cmd st _ (by decide)]
      simp
    · rw [if_neg h1]
      by_cases h2 : check_button env b = PRIMO_MAGNET_RIGHT
      · rw [if_pos h2,
          show stepButton env st b = push st PRIMO_COMMAND_RIGHT from by
            unfold stepButton; rw [if_neg (by simp [h]), if_neg h1, if_pos h2],
          ih _ (by simpa [push] using h), cmdValues_push_cmd st _ (by decide)]
        simp
      · rw [if_neg h2]
        by_cases h3 : check_button env b = PRIMO_MAGNET_LEFT
        · rw [if_pos h3,
            show stepButton env st b = push st PRIMO_COMMAND_LEFT from by
              unfold stepButton; rw [if_neg (by simp [h]), if_neg h1, if_neg h2, if_pos h3],
            ih _ (by simpa [push] using h), cmdValues_push_cmd st _ (by decide)]
          simp
        · rw [if_neg h3]
          by_cases h4 : check_button env b = PRIMO_MAGNET_FUNCTION
          · rw [if_pos h4,
              show stepButton env st b = (List.range' 1 4).foldl (stepAux env) st from by
                unfold stepButton
                rw [if_neg (by simp [h]), if_neg h1, if_neg h2, if_neg h3, if_pos h4],
              ih _ (by rw [auxFold_term]; exact h), auxFold_functionExpansion]
            simp
          · rw [if_neg h4]
            by_cases h5 : check_button env b = PRIMO_MAGNET_NONE
            · rw [if_pos h5,
                show stepButton env st b = { st with term := true } from by
                  unfold stepButton
                  rw [if_neg (by simp [h]), if_neg h1, if_neg h2, if_neg h3, if_neg h4,
                    if_pos h5],
                buttonFold_term_true env l _ rfl]
              simp
            · rw [if_neg h5,
                show stepButton env st b = st from by
                  unfold stepButton
                  rw [if_neg (by simp [h]), if_neg h1, if_neg h2, if_neg h3, if_neg h4,
                    if_neg h5],
                ih st h]

theorem padStops_cmdValues (st : BuildState) :
    cmdValues (padStops st).ws = cmdValues st.ws := by
  show cmdValues (st.ws ++ _) = cmdValues st.ws
  rw [cmdValues_append, cmdValues_stops_map, List.append_nil]

theorem buildWrites_cmdValues (env : Ports) :
    cmdValues (buildWrites env) = scanCommands env (List.range' 1 PRIMO_MAX_BUTTON) := by
  unfold buildWrites
  rw [padStops_cmdValues]
  unfold buildLoop
  rw [buttonFold_cmdValues env _ _ rfl]
  rfl

theorem scanCommands_append (env : Ports) (l1 l2 : List Nat) :
    scanCommands env (l1 ++ l2)
      = if l1.any (fun b => check_button env b == PRIMO_MAGNET_NONE)
        then scanCommands env l1
        else scanCommands env l1 ++ scanCommands env l2 := by
  induction l1 with
  | nil => simp [scanCommands]
  | cons b l1 ih =>
    rw [List.cons_append, scanCommands, scanCommands, List.any_cons]
    by_cases h1 : check_button env b = PRIMO_MAGNET_FORWARD
    · rw [if_pos h1, if_pos h1, ih]
      simp [h1]
      split_ifs <;> simp
    · rw [if_neg h1, if_neg h1]
      by_cases h2 : check_button env b = PRIMO_MAGNET_RIGHT
      · rw [if_pos h2, if_pos h2, ih]
        simp [h2]
        split_ifs <;> simp
      · rw [if_neg h2, if_neg h2]
        by_cases h3 : check_button env b = PRIMO_MAGNET_LEFT
        · rw [if_pos h3, if_pos h3, ih]
          simp [h3]
          split_ifs <;> simp
        · rw [if_neg h3, if_neg h3]
          by_cases h4 : check_button env b = PRIMO_MAGNET_FUNCTION
          · rw [if_pos h4, if_pos h4, ih]
            simp [h4]
            split_ifs <;> simp
          · rw [if_neg h4, if_neg h4]
            by_cases h5 : check_button env b = PRIMO_MAGNET_NONE
            · rw [if_pos h5, if_pos h5, if_pos (by simp [h5])]
            · rw [if_neg h5, if_neg h5, ih]
              simp [h5]

theorem range28_split :
    List.range' 1 PRIMO_MAX_BUTTON = List.range' 1 12 ++ List.range' 13 16 := by
  decide

/-- C1: every frame handed to the radio is exactly 32 bytes; bytes 0..4
hold the little-endian bytes of the fixed ProtocolTag constant 0xDE1D8758,
bytes 4..8 hold the little-endian bytes of the DeviceIdentity drawn once at
boot (the same value in every frame of one power cycle, since the statement
holds for every gesture sequence of the cycle), and bytes 8..32 hold 24
one-byte Command values drawn from 0=Stop, 1=Forward, 2=Left, 3=Right. -/
theorem C1_frame_layout (r : Nat) (envs : List Ports) :
    (frameBytes (runGestures r envs)).length = PRIMO_NRF24L01_MAX_PACKET_SIZE
    ∧ (∀ i, i < 4 → runGestures r envs i = (PRIMO_ID >>> (8 * i)) &&& 0xFF)
    ∧ (∀ i, i < 4 → runGestures r envs (4 + i) = (r >>> (8 * i)) &&& 0xFF)
    ∧ (∀ i, 8 ≤ i → i < PRIMO_NRF24L01_MAX_PACKET_SIZE →
        runGestures r envs i
          ∈ [PRIMO_COMMAND_STOP, PRIMO_COMMAND_FORWARD,
             PRIMO_COMMAND_LEFT, PRIMO_COMMAND_RIGHT]) := by
  refine ⟨by simp [frameBytes], ?_, ?_, ?_⟩
  · intro i hi
    unfold runGestures
    rw [foldGestures_low envs _ i (by omega)]
    exact initialise_packet_tag r i hi
  · intro i hi
    unfold runGestures
    rw [foldGestures_low envs _ (4 + i) (by omega)]
    exact initialise_packet_identity r i hi
  · intro i h8 h32
    have hle : runGestures r envs i ≤ 3 :=
      foldGestures_le_three envs _ i (initialise_packet_le_three r i h8)
    simp only [List.mem_cons, List.not_mem_nil, or_false, PRIMO_COMMAND_STOP,
      PRIMO_COMMAND_FORWARD, PRIMO_COMMAND_LEFT, PRIMO_COMMAND_RIGHT]
    omega

/-- Witness for C1 at a concrete power cycle: identity 5, one gesture on an
empty board. -/
theorem C1_frame_layout_witness :
    runGestures 5 [envAllEmpty] 0 = (PRIMO_ID >>> (8 * 0)) &&& 0xFF
    ∧ runGestures 5 [envAllEmpty] (4 + 1) = ((5 : Nat) >>> (8 * 1)) &&& 0xFF
    ∧ runGestures 5 [envAllEmpty] 10
        ∈ [PRIMO_COMMAND_STOP, PRIMO_COMMAND_FORWARD,
           PRIMO_COMMAND_LEFT, PRIMO_COMMAND_RIGHT] :=
  ⟨(C1_frame_layout 5 [envAllEmpty]).2.1 0 (by decide),
   (C1_frame_layout 5 [envAllEmpty]).2.2.1 1 (by decide),
   (C1_frame_layout 5 [envAllEmpty]).2.2.2 10 (by decide) (by decide)⟩

/-- C2 falsified on the code: the Stop-padding loop pads only up to index
28 (PRIMO_MAX_BUTTON), not to the end of the 32-byte packet, so a second
gesture that writes few bytes leaves the previous gesture's command bytes
at indices 28..31.  After a first gesture whose 12 Function slots expand to
52 Forward commands and a second gesture whose Function slots all expand to
nothing, the transmitted frame holds Stop at byte 27 and Forward at byte
28: a Stop followed by a non-Stop inside the command region. -/
theorem C2_stale_commands_after_pad :
    runGestures 0 [envAllFunctionForward, envAllFunctionEmpty] 27 = PRIMO_COMMAND_STOP
    ∧ runGestures 0 [envAllFunctionForward, envAllFunctionEmpty] 28
        = PRIMO_COMMAND_FORWARD := by
  constructor <;> decide

/-- C3 falsified as stated: on a board whose 12 primary slots all decode
Function and whose 4 auxiliary slots all decode Forward, the build pass
appends 52 commands (more than the 24-command capacity) and performs
command stores at indices at and beyond the end of the 32-byte packet:
nothing is truncated. -/
theorem C3_counterexample :
    24 < (cmdValues (buildWrites envAllFunctionForward)).length
    ∧ ∃ w ∈ buildWrites envAllFunctionForward,
        w.2 ≠ PRIMO_COMMAND_STOP ∧ PRIMO_NRF24L01_MAX_PACKET_SIZE ≤ w.1 := by
  constructor <;> decide

/-- C3 amended: the builder performs no capacity check and never
truncates — the non-Stop stores of a build pass are exactly the decoded
command sequence of the scanned buttons, however long it is. -/
theorem C3_no_truncation (env : Ports) :
    cmdValues (buildWrites env) = scanCommands env (List.range' 1 PRIMO_MAX_BUTTON) :=
  buildWrites_cmdValues env

/-- C4 falsified as stated: on a board where all 12 primary slots decode
Forward and auxiliary slot 13 also decodes Forward, the build pass appends
13 commands — auxiliary slot 13 contributes a command directly, outside any
Function expansion, because the scan loop runs over buttons 1..28, not
1..12. -/
theorem C4_counterexample :
    cmdValues (buildWrites envPrimariesFull)
      ≠ scanCommands envPrimariesFull (List.range' 1 12) := by
  decide

/-- C4 amended: the scan covers buttons 1..28, so auxiliary slots 13..16
are also scanned directly after the primaries; provided at least one
primary slot 1..12 decodes None, the commands of the build pass are exactly
those decoded from primary slots 1..12 (auxiliary slots contributing only
through Function expansion), and the first None ends all contribution. -/
theorem C4_primary_slots_only (env : Ports)
    (h : (List.range' 1 12).any (fun b => check_button env b == PRIMO_MAGNET_NONE) = true) :
    cmdValues (buildWrites env) = scanCommands env (List.range' 1 12) := by
  rw [buildWrites_cmdValues, range28_split, scanCommands_append, if_pos h]

/-- Witness for C4 on the all-empty board: slot 1 decodes None and the
build pass appends no command. -/
theorem C4_primary_slots_only_witness :
    (List.range' 1 12).any (fun b => check_button envAllEmpty b == PRIMO_MAGNET_NONE) = true
    ∧ cmdValues (buildWrites envAllEmpty) = scanCommands envAllEmpty (List.range' 1 12) :=
  ⟨by decide, C4_primary_slots_only envAllEmpty (by decide)⟩

/-- C5: `check_button` decodes the corrected 3-bit code through the decode
table; the non-inverted table maps 0 to None, 2 to Function, 3 to Forward,
4 to None, 5 to Left, 6 to Right and 7 to None; the inverted table maps 2
to Function, 3 to Right, 4 to Function, 5 to Left, 6 to Forward and 7 to
None; and every code outside 2..6 — in particular 0, 1 and 7 — decodes to
None in both tables, never to a motion or Function command. -/
theorem C5_decode_tables :
    (∀ (env : Ports) (b : Nat),
      check_button env b = decode_code (slotInvert b) (correctedCode env b))
    ∧ (decode_code false 0 = PRIMO_MAGNET_NONE
       ∧ decode_code false 2 = PRIMO_MAGNET_FUNCTION
       ∧ decode_code false 3 = PRIMO_MAGNET_FORWARD
       ∧ decode_code false 4 = PRIMO_MAGNET_NONE
       ∧ decode_code false 5 = PRIMO_MAGNET_LEFT
       ∧ decode_code false 6 = PRIMO_MAGNET_RIGHT
       ∧ decode_code false 7 = PRIMO_MAGNET_NONE)
    ∧ (decode_code true 2 = PRIMO_MAGNET_FUNCTION
       ∧ decode_code true 3 = PRIMO_MAGNET_RIGHT
       ∧ decode_code true 4 = PRIMO_MAGNET_FUNCTION
       ∧ decode_code true 5 = PRIMO_MAGNET_LEFT
       ∧ decode_code true 6 = PRIMO_MAGNET_FORWARD
       ∧ decode_code true 7 = PRIMO_MAGNET_NONE)
    ∧ (∀ (inv : Bool) (c : Nat), c ≠ 2 → c ≠ 3 → c ≠ 4 → c ≠ 5 → c ≠ 6 →
        decode_code inv c = PRIMO_MAGNET_NONE) := by
  refine ⟨fun env b => rfl, by decide, by decide, ?_⟩
  intro inv c hc2 hc3 hc4 hc5 hc6
  unfold decode_code
  split_ifs <;> simp_all

/-- Witness for C5 at the undefined code 1 with the inverted table. -/
theorem C5_decode_tables_witness :
    decode_code true 1 = PRIMO_MAGNET_NONE :=
  C5_decode_tables.2.2.2 true 1 (by decide) (by decide) (by decide) (by decide) (by decide)

/-- C6: the untwist correction computes exactly the bit permutation whose
output bit 0 is input bit 0, output bit 1 is input bit 2 and output bit 2
is input bit 1, and on 3-bit codes it is its own inverse. -/
theorem C6_untwist_permutation (b : Nat) (hb : b < 8) :
    untwist b &&& 1 = b &&& 1
    ∧ (untwist b >>> 1) &&& 1 = (b >>> 2) &&& 1
    ∧ (untwist b >>> 2) &&& 1 = (b >>> 1) &&& 1
    ∧ untwist (untwist b) = b := by
  interval_cases b <;> decide

/-- Witness for C6 at code 5. -/
theorem C6_untwist_permutation_witness :
    5 < 8
    ∧ (untwist 5 &&& 1 = 5 &&& 1
       ∧ (untwist 5 >>> 1) &&& 1 = ((5 : Nat) >>> 2) &&& 1
       ∧ (untwist 5 >>> 2) &&& 1 = ((5 : Nat) >>> 1) &&& 1
       ∧ untwist (untwist 5) = 5) :=
  ⟨by decide, C6_untwist_permutation 5 (by decide)⟩

/-- C7: a Function slot expands by decoding auxiliary slots 13..16 in fixed
increasing order, appending one command per auxiliary slot that decodes
Forward, Right or Left and nothing for any other decode; the inner loop of
the build pass appends exactly this expansion, and auxiliary reads
Forward, None, Left, Right expand to exactly Forward, Left, Right. -/
theorem C7_function_expansion :
    (∀ (env : Ports) (st : BuildState),
      cmdValues (((List.range' 1 4).foldl (stepAux env) st).ws)
        = cmdValues st.ws ++ functionExpansion env)
    ∧ (∀ env : Ports,
        check_button env 13 = PRIMO_MAGNET_FORWARD →
        check_button env 14 = PRIMO_MAGNET_NONE →
        check_button env 15 = PRIMO_MAGNET_LEFT →
        check_button env 16 = PRIMO_MAGNET_RIGHT →
        functionExpansion env
          = [PRIMO_COMMAND_FORWARD, PRIMO_COMMAND_LEFT, PRIMO_COMMAND_RIGHT]) := by
  refine ⟨fun env st => auxFold_functionExpansion env st, ?_⟩
  intro env h13 h14 h15 h16
  unfold functionExpansion
  rw [show List.range' 1 4 = [1, 2, 3, 4] from rfl]
  simp [List.filterMap_cons, h13, h14, h15, h16, magnetToCommand]

/-- Witness for C7 at the concrete auxiliary reading Forward, None, Left,
Right. -/
theorem C7_function_expansion_witness :
    check_button envAuxExample 13 = PRIMO_MAGNET_FORWARD
    ∧ check_button envAuxExample 14 = PRIMO_MAGNET_NONE
    ∧ check_button envAuxExample 15 = PRIMO_MAGNET_LEFT
    ∧ check_button envAuxExample 16 = PRIMO_MAGNET_RIGHT
    ∧ functionExpansion envAuxExample
        = [PRIMO_COMMAND_FORWARD, PRIMO_COMMAND_LEFT, PRIMO_COMMAND_RIGHT] :=
  ⟨by decide, by decide, by decide, by decide,
   C7_function_expansion.2 envAuxExample (by decide) (by decide) (by decide) (by decide)⟩

/-- C8 falsified on the code: on the all-empty board the terminated branch
stores a Stop for every remaining button up to 28, reaching indices 32, 33
and 34 — stores outside the 32-byte packet array. -/
theorem C8_out_of_bounds_store :
    ∃ w ∈ buildWrites envAllEmpty, PRIMO_NRF24L01_MAX_PACKET_SIZE ≤ w.1 := by
  decide

/-- C9: after a completed capture gesture the loop hands the freshly built
32-byte frame to `radio.startWrite` twice in immediate succession, with no
other radio interaction between or after the two sends. -/
theorem C9_double_send (env : Ports) (p : Nat → Nat) :
    gestureTrace env p
      = [RadioAction.startWrite (frameBytes (buildPass env p)) PRIMO_NRF24L01_MAX_PACKET_SIZE,
         RadioAction.startWrite (frameBytes (buildPass env p)) PRIMO_NRF24L01_MAX_PACKET_SIZE]
    ∧ (frameBytes (buildPass env p)).length = PRIMO_NRF24L01_MAX_PACKET_SIZE :=
  ⟨rfl, by simp [frameBytes]⟩

/-- C10: the radio event handler powers the transport down exactly when the
event reports transmit-ok or transmit-failed; a data-received event's only
state change is storing the 32-bit acknowledgement counter, and the handler
hands no frame to the radio in any case. -/
theorem C10_radio_handler (ev : RadioEvent) (ack : Nat) :
    ((checkRadio ev ack).2.1 = true ↔ (ev.tx = true ∨ ev.fail = true))
    ∧ (checkRadio ev ack).2.2 = []
    ∧ (checkRadio ev ack).1 = (if ev.rx then ev.ackPayload % 2 ^ 32 else ack) := by
  refine ⟨?_, rfl, rfl⟩
  simp [checkRadio]
